import Mathlib

/-!
Verification of the local development service registry
(dev-registry: startWorkerRegistry, registerWorker, unregisterWorker,
getRegisteredWorkers, getBoundRegisteredWorkers).

The registry server keeps an in-memory JavaScript object mapping worker
names to worker definitions; we embed that object as an association list
whose update, delete and clear operations mirror the Express endpoint
handlers line by line. Client operations are embedded as functions of the
network outcome they observe (the fetch either returns a response or
throws an error carrying an optional cause code).
-/

namespace DevRegistry

/-- The protocol field of a WorkerDefinition: "http" or "https". -/
inductive Protocol where
  | http
  | https
deriving DecidableEq

/-- The mode field of a WorkerDefinition: "local" or "remote". -/
inductive WorkerMode where
  | localMode
  | remoteMode
deriving DecidableEq

/-- One entry of the durableObjects array of a WorkerDefinition:
a name and className pair. -/
structure DurableObjectRef where
  name : String
  className : String
deriving DecidableEq

/-- WorkerDefinition from the source: port, protocol and host are
optional, mode is required, headers is an optional record of strings,
durableObjects is an array of name and className pairs, and the
durable-object traffic address override fields are optional. -/
structure WorkerDefinition where
  port : Option Nat
  protocol : Option Protocol
  host : Option String
  mode : WorkerMode
  headers : Option (List (String × String)) := none
  durableObjects : List DurableObjectRef
  durableObjectsHost : Option String := none
  durableObjectsPort : Option Nat := none
deriving DecidableEq

/-- WorkerRegistry = Record of string to WorkerDefinition: the in-memory
object held by the server, embedded as an association list in object
insertion order with at most one entry per key. -/
abbrev WorkerRegistry := List (String × WorkerDefinition)

/-- Property assignment on the registry object,
the body of the POST /workers/:workerId handler
(workers[req.params.workerId] = req.body): if the key is present its
value is updated in place, otherwise the entry is appended. -/
def upsert : WorkerRegistry → String → WorkerDefinition → WorkerRegistry
  | [], k, v => [(k, v)]
  | (k', v') :: rest, k, v =>
    if k' = k then (k, v) :: rest else (k', v') :: upsert rest k v

/-- Property deletion on the registry object,
the body of the DELETE /workers/:workerId handler
(delete workers[req.params.workerId]). -/
def removeWorker (reg : WorkerRegistry) (k : String) : WorkerRegistry :=
  reg.filter (fun p => p.1 ≠ k)

/-- Reading one key of the registry object (workers[k]). -/
def lookupWorker : WorkerRegistry → String → Option WorkerDefinition
  | [], _ => none
  | (k', v') :: rest, k => if k' = k then some v' else lookupWorker rest k

/-- The four HTTP requests the registry server routes. -/
inductive Request where
  | getWorkers
  | postWorker (workerId : String) (body : WorkerDefinition)
  | deleteWorker (workerId : String)
  | deleteAllWorkers
deriving DecidableEq

/-- The JSON responses the endpoint handlers produce: res.json(workers)
for GET and res.json(null) for the mutating endpoints. -/
inductive Response where
  | jsonRegistry (reg : WorkerRegistry)
  | jsonNull
deriving DecidableEq

/-- The Express app installed by startWorkerRegistry: routes a request to
its handler and returns the new registry state and the response. -/
def handleRequest (workers : WorkerRegistry) : Request → WorkerRegistry × Response
  | .getWorkers => (workers, .jsonRegistry workers)
  | .postWorker workerId body => (upsert workers workerId body, .jsonNull)
  | .deleteWorker workerId => (removeWorker workers workerId, .jsonNull)
  | .deleteAllWorkers => ([], .jsonNull)

/-- Modelled from the spec: the external config supplies the declared
service bindings; only the target service name of each declared service
binding is consumed by the discovery filter. -/
structure ServiceBindingDecl where
  service : String
deriving DecidableEq

/-- Modelled from the spec: a declared durable-object binding; its
script_name names the worker hosting the durable-object class and may be
absent when the class lives in the same worker. -/
structure DurableObjectBindingDecl where
  script_name : Option String
deriving DecidableEq

/-- Modelled from the spec: the durable_objects section of the external
config, a list of durable-object binding declarations. -/
structure DurableObjectsDecl where
  bindings : List DurableObjectBindingDecl
deriving DecidableEq

/-- The serviceNames array of getBoundRegisteredWorkers:
(services or the empty list) mapped to each declared target service. -/
def serviceNamesOf (services : Option (List ServiceBindingDecl)) :
    List String :=
  (services.getD []).map (fun serviceBinding => serviceBinding.service)

/-- The durableObjectServices array of getBoundRegisteredWorkers:
(durableObjects or an empty bindings object) mapped to each declared
script_name. -/
def durableObjectServicesOf (durableObjects : Option DurableObjectsDecl) :
    List (Option String) :=
  (durableObjects.getD { bindings := [] }).bindings.map
    (fun durableObjectBinding => durableObjectBinding.script_name)

/-- getBoundRegisteredWorkers: given the declared bindings and the result
of getRegisteredWorkers (none when the registry was unreachable), keeps
exactly the entries of (workerDefinitions or the empty mapping) whose key
occurs among the declared service names or the declared durable-object
script names. -/
def getBoundRegisteredWorkers (services : Option (List ServiceBindingDecl))
    (durableObjects : Option DurableObjectsDecl)
    (workerDefinitions : Option WorkerRegistry) : WorkerRegistry :=
  (workerDefinitions.getD []).filter (fun p =>
    (serviceNamesOf services).contains p.1 ||
      (durableObjectServicesOf durableObjects).contains (some p.1))

/-- An error thrown by fetch, as the catch blocks observe it: only the
optional code string on its optional cause is inspected
(e.cause?.code). A none causeCode covers both a missing cause and a
cause without a code. -/
structure FetchError where
  causeCode : Option String
deriving DecidableEq

/-- The code list tested by every catch block:
["ECONNRESET", "ECONNREFUSED"]. -/
def swallowedCodes : List String := ["ECONNRESET", "ECONNREFUSED"]

/-- The expression e.cause?.code or "___": a missing code falls back to
"___", and so does an empty code string because the JavaScript or
operator treats the empty string as falsy. -/
def causeCodeOrDefault (c : Option String) : String :=
  match c with
  | some s => if s = "" then ("___") else s
  | none => "___"

/-- The test guarding each catch block:
["ECONNRESET", "ECONNREFUSED"].includes(e.cause?.code or "___"). -/
def isSwallowedError (e : FetchError) : Bool :=
  swallowedCodes.contains (causeCodeOrDefault e.causeCode)

/-- How a call to registerWorker finishes: the fetch response is
returned, or a caught error was logged at error severity
(logger.error), or at debug severity (logger.debug). There is no
throwing constructor because the catch block never rethrows. -/
inductive RegisterOutcome (ρ : Type) where
  | ok (response : ρ)
  | loggedError
  | loggedDebug
deriving DecidableEq

/-- registerWorker on a name and definition, as a function of the
outcome of its POST fetch: a response is returned as is; a thrown error
with a connection-reset or connection-refused cause code is logged at
debug severity, any other error at error severity; nothing is
rethrown. -/
def registerWorker {ρ : Type} (name : String)
    (definition : WorkerDefinition) (fetchResult : Except FetchError ρ) :
    RegisterOutcome ρ :=
  match fetchResult with
  | .ok r => .ok r
  | .error e => if isSwallowedError e then .loggedDebug else .loggedError

/-- How a call to unregisterWorker finishes: it returns normally
(either the fetch succeeded or the caught error was swallowed), or it
rethrows the caught error. -/
inductive UnregisterOutcome where
  | completed
  | thrown (e : FetchError)
deriving DecidableEq

/-- unregisterWorker on a name, as a function of the outcome of its
DELETE fetch: success completes; a thrown error with a connection-reset
or connection-refused cause code is swallowed, and any other error is
rethrown to the caller. -/
def unregisterWorker (name : String)
    (fetchResult : Except FetchError Unit) : UnregisterOutcome :=
  match fetchResult with
  | .ok _ => .completed
  | .error e => if isSwallowedError e then .completed else .thrown e

/-- getRegisteredWorkers, as a function of the outcome of its GET
fetch: the parsed registry on success, undefined (none) when the thrown
error has a connection-reset or connection-refused cause code, and the
error rethrown otherwise. -/
def getRegisteredWorkers
    (fetchResult : Except FetchError WorkerRegistry) :
    Except FetchError (Option WorkerRegistry) :=
  match fetchResult with
  | .ok reg => .ok (some reg)
  | .error e => if isSwallowedError e then .ok none else .error e

/-- One live registry server instance created in this process: the
createServer handle together with the workers object closed over by the
endpoint handlers, which starts out empty. -/
structure ServerInstance where
  id : Nat
  workers : WorkerRegistry
deriving DecidableEq

/-- The module level mutable state of one process: the server handle,
null when no in-process server is live, plus a counter supplying fresh
instance identities. -/
structure RegProcessState where
  server : Option ServerInstance
  nextId : Nat
deriving DecidableEq

/-- The outcome of the isPortAvailable probe: it resolves true when its
temporary listener binds, resolves false when binding fails with
EADDRINUSE, and rejects with the error otherwise. -/
inductive ProbeResult where
  | available
  | inUse
  | probeError (code : String)
deriving DecidableEq

/-- startWorkerRegistry as a state transition on the process state,
driven by the probe outcome. A probe rejection propagates, because the
awaited promise throws before the null check on the handle is reached.
When the probe resolves true and the in-process handle is null, a fresh
server closing over an empty workers object is created and recorded.
In every other case the call returns without doing anything. -/
def startWorkerRegistry (st : RegProcessState) (probe : ProbeResult) :
    Except String RegProcessState :=
  match probe with
  | .probeError code => .error code
  | .available =>
    if st.server.isNone then
      .ok { server := some { id := st.nextId, workers := [] },
            nextId := st.nextId + 1 }
    else .ok st
  | .inUse => .ok st

/-- The close listener installed on the server socket: when the socket
closes, the module level handle is reset to null for restart. -/
def onServerClose (st : RegProcessState) : RegProcessState :=
  { st with server := none }

/-- A sample worker definition used to instantiate theorems. -/
def sampleDefinition : WorkerDefinition :=
  { port := some 8787, protocol := some .http, host := some ("127.0.0.1"),
    mode := .localMode, durableObjects := [] }

theorem lookupWorker_upsert_self (reg : WorkerRegistry) (k : String)
    (v : WorkerDefinition) : lookupWorker (upsert reg k v) k = some v := by
  induction reg with
  | nil => simp [upsert, lookupWorker]
  | cons hd tl ih =>
    by_cases h : hd.1 = k
    · simp [upsert, h, lookupWorker]
    · simp [upsert, h, lookupWorker, ih]

theorem lookupWorker_upsert_other (reg : WorkerRegistry) (k m : String)
    (v : WorkerDefinition) (hmk : m ≠ k) :
    lookupWorker (upsert reg k v) m = lookupWorker reg m := by
  induction reg with
  | nil => simp [upsert, lookupWorker, Ne.symm hmk]
  | cons hd tl ih =>
    by_cases h : hd.1 = k
    · simp [upsert, h, lookupWorker, Ne.symm hmk]
    · by_cases h2 : hd.1 = m
      · simp [upsert, h, lookupWorker, h2, hmk]
      · simp [upsert, h, lookupWorker, h2, ih]

/-- C1: upserting a name with d1 and then with d2 through the POST
/workers/:workerId handler leaves the registry mapping that name to
exactly d2, and every other name maps to whatever it mapped to before. -/
theorem post_upsert_fully_replaces (reg : WorkerRegistry) (n : String)
    (d1 d2 : WorkerDefinition) (m : String) (hm : m ≠ n) :
    lookupWorker (handleRequest (handleRequest reg (.postWorker n d1)).1
      (.postWorker n d2)).1 n = some d2 ∧
    lookupWorker (handleRequest (handleRequest reg (.postWorker n d1)).1
      (.postWorker n d2)).1 m = lookupWorker reg m := by
  constructor
  · simp [handleRequest, lookupWorker_upsert_self]
  · simp [handleRequest, lookupWorker_upsert_other _ _ _ _ hm]

/-- Witness for C1 at a concrete registry, names and definitions. -/
theorem post_upsert_fully_replaces_witness :
    lookupWorker (handleRequest (handleRequest
      [("other", { port := some 1000, protocol := none, host := none,
                   mode := .localMode, durableObjects := [] })]
      (.postWorker ("w1")
        { port := some 8787, protocol := some .http, host := none,
          mode := .localMode, durableObjects := [] })).1
      (.postWorker ("w1")
        { port := some 8788, protocol := none, host := none,
          mode := .remoteMode, durableObjects := [] })).1 "w1" =
      some { port := some 8788, protocol := none, host := none,
             mode := .remoteMode, durableObjects := [] } ∧
    lookupWorker (handleRequest (handleRequest
      [("other", { port := some 1000, protocol := none, host := none,
                   mode := .localMode, durableObjects := [] })]
      (.postWorker ("w1")
        { port := some 8787, protocol := some .http, host := none,
          mode := .localMode, durableObjects := [] })).1
      (.postWorker ("w1")
        { port := some 8788, protocol := none, host := none,
          mode := .remoteMode, durableObjects := [] })).1 "other" =
    lookupWorker
      [("other", { port := some 1000, protocol := none, host := none,
                   mode := .localMode, durableObjects := [] })] "other" :=
  post_upsert_fully_replaces _ "w1" _ _ "other" (by decide)

/-- C2: getBoundRegisteredWorkers keeps exactly the registry entries
whose name equals a declared service binding target or a declared
durable-object script name, and returns the empty mapping when the
registry was unreachable. -/
theorem getBound_filtered_discovery
    (services : Option (List ServiceBindingDecl))
    (durableObjects : Option DurableObjectsDecl) (reg : WorkerRegistry)
    (n : String) (d : WorkerDefinition) :
    ((n, d) ∈ getBoundRegisteredWorkers services durableObjects (some reg) ↔
      (n, d) ∈ reg ∧
        (n ∈ serviceNamesOf services ∨
          some n ∈ durableObjectServicesOf durableObjects)) ∧
    getBoundRegisteredWorkers services durableObjects none = [] := by
  constructor
  · simp [getBoundRegisteredWorkers, List.mem_filter]
  · rfl

/-- C5: the DELETE /workers handler empties the registry, so a
subsequent GET /workers request reports the empty mapping. -/
theorem delete_all_clears (reg : WorkerRegistry) (h : 1 ≤ reg.length) :
    (handleRequest reg .deleteAllWorkers).1 = [] ∧
    (handleRequest (handleRequest reg .deleteAllWorkers).1
      .getWorkers).2 = .jsonRegistry [] :=
  ⟨rfl, rfl⟩

/-- Witness for C5 at a one-entry registry. -/
theorem delete_all_clears_witness :
    (handleRequest
      [("w1", { port := some 8787, protocol := some .http, host := none,
                mode := .localMode, durableObjects := [] })]
      .deleteAllWorkers).1 = [] ∧
    (handleRequest (handleRequest
      [("w1", { port := some 8787, protocol := some .http, host := none,
                mode := .localMode, durableObjects := [] })]
      .deleteAllWorkers).1 .getWorkers).2 = .jsonRegistry [] :=
  delete_all_clears
    [("w1", { port := some 8787, protocol := some .http, host := none,
              mode := .localMode, durableObjects := [] })] (by decide)

theorem isSwallowedError_iff (e : FetchError) :
    isSwallowedError e = true ↔
      (e.causeCode = some ("ECONNRESET") ∨
        e.causeCode = some ("ECONNREFUSED")) := by
  rcases e with ⟨c⟩
  cases c with
  | none => simp [isSwallowedError, causeCodeOrDefault, swallowedCodes]
  | some s =>
    by_cases hs : s = ""
    · subst hs
      simp [isSwallowedError, causeCodeOrDefault, swallowedCodes]
    · simp [isSwallowedError, causeCodeOrDefault, swallowedCodes, hs]

/-- C3: when the POST fetch in registerWorker throws, the error is
logged at debug or error severity and registerWorker does not rethrow;
when the DELETE fetch in unregisterWorker throws, the error is
swallowed exactly when its cause code is ECONNRESET or ECONNREFUSED and
is rethrown to the caller for every other error. -/
theorem register_unregister_error_asymmetry (name : String)
    (definition : WorkerDefinition) (e : FetchError) :
    (registerWorker name definition
        (Except.error e : Except FetchError Unit) = .loggedDebug ∨
      registerWorker name definition
        (Except.error e : Except FetchError Unit) = .loggedError) ∧
    (unregisterWorker name (Except.error e) = .completed ↔
      (e.causeCode = some ("ECONNRESET") ∨
        e.causeCode = some ("ECONNREFUSED"))) ∧
    (¬ (e.causeCode = some ("ECONNRESET") ∨
        e.causeCode = some ("ECONNREFUSED")) →
      unregisterWorker name (Except.error e) = .thrown e) := by
  refine ⟨?_, ?_, ?_⟩
  · by_cases h : isSwallowedError e
    · exact Or.inl (by simp [registerWorker, h])
    · exact Or.inr (by simp [registerWorker, h])
  · rw [← isSwallowedError_iff]
    by_cases h : isSwallowedError e <;> simp [unregisterWorker, h]
  · intro hn
    rw [← isSwallowedError_iff] at hn
    simp [unregisterWorker, hn]

/-- Witness for C3 at a concrete name, definition and a thrown error
whose cause code is EPIPE: unregisterWorker rethrows it. -/
theorem register_unregister_error_asymmetry_witness :
    ¬ ((some ("EPIPE") : Option String) = some ("ECONNRESET") ∨
        (some ("EPIPE") : Option String) = some ("ECONNREFUSED")) ∧
    unregisterWorker ("w1")
        (Except.error { causeCode := some ("EPIPE") }) =
      .thrown { causeCode := some ("EPIPE") } :=
  ⟨by decide,
    (register_unregister_error_asymmetry ("w1") sampleDefinition
      { causeCode := some ("EPIPE") }).2.2 (by decide)⟩

/-- C4: a start call while the in-process handle is set and the probe
resolves, or while the port is found occupied, leaves the state
unchanged and throws nothing; a probe error other than EADDRINUSE
propagates from the start call; and once the close listener has fired
the handle is null, so a start call finding the port available creates
a fresh instance with an empty registry. -/
theorem startWorkerRegistry_single_authority (st : RegProcessState)
    (code : String) :
    (startWorkerRegistry st (.probeError code) = .error code) ∧
    (startWorkerRegistry st .inUse = .ok st) ∧
    (st.server.isSome = true →
      startWorkerRegistry st .available = .ok st) ∧
    ((onServerClose st).server = none) ∧
    (startWorkerRegistry (onServerClose st) .available =
      .ok { server := some { id := st.nextId, workers := [] },
            nextId := st.nextId + 1 }) := by
  refine ⟨rfl, rfl, ?_, rfl, rfl⟩
  intro h
  have hn : st.server.isNone = false := by
    cases hs : st.server <;> simp_all
  simp [startWorkerRegistry, hn]

/-- Witness for C4 at a state holding a live server: the start call
returns the state unchanged. -/
theorem startWorkerRegistry_single_authority_witness :
    ((({ server := some { id := 0, workers := [] }, nextId := 1 } :
        RegProcessState)).server.isSome = true) ∧
    startWorkerRegistry
        { server := some { id := 0, workers := [] }, nextId := 1 }
        .available =
      .ok { server := some { id := 0, workers := [] }, nextId := 1 } :=
  ⟨rfl,
    (startWorkerRegistry_single_authority
      { server := some { id := 0, workers := [] }, nextId := 1 }
      ("EACCES")).2.2.1 rfl⟩

end DevRegistry
